import Mathlib

/-!
Shallow embedding of the H&M AI Stylist dashboard's core logic
(`src/app.py` and `src/data_loader.py`), together with theorems checking
the natural-language specification against it.

Conventions of the embedding:
* A pandas row of the product catalog becomes the structure `Row`; the
  columns actually read by the embedded functions are its fields.
* Python floats become `ℚ` (the arithmetic in the source is exact decimal
  arithmetic at the scale of the claims; no rounding behaviour is at stake).
* A pandas `DataFrame` becomes a `List Row` in original row order; an added
  column (`match_score`) becomes pairing each row with its score.
* The filesystem seen by `os.path.exists` becomes a `List String` of the
  paths that exist.
-/

/-- A row of the product catalog (`df_articles` / `article_master_web`):
the columns read by `calculate_similarity`, `get_recommendations` and
`filter_products`. -/
structure Row where
  article_id : ℤ
  mood : String
  price : ℚ
  hotness_score : ℚ
  section_name : String
  perceived_colour_master_name : String
deriving DecidableEq, Repr

/-- Embedding of `calculate_similarity` (src/app.py lines 216–240).
The `visual_data` parameter of the source is never read in its body and is
omitted.  The source accumulates into `score`: 0.4 for equal `mood`, then a
price-closeness term guarded by `max_price > 0`, then an unclamped
hotness-closeness term, then 0.1 for equal `section_name`, and finally
returns `min(score, 1.0)`. -/
def calculate_similarity (product1 product2 : Row) : ℚ :=
  let score : ℚ := 0
  let score := score + (if product1.mood = product2.mood then (4/10 : ℚ) else 0)
  let price_diff := |product1.price - product2.price|
  let max_price := max product1.price product2.price
  let score := score +
    (if max_price > 0 then (1 - min (price_diff / max_price) 1) * (3/10) else 0)
  let hotness_diff := |product1.hotness_score - product2.hotness_score|
  let hotness_similarity := 1 - hotness_diff
  let score := score + hotness_similarity * (2/10)
  let score := score + (if product1.section_name = product2.section_name then (1/10 : ℚ) else 0)
  min score 1

/-- The function `clamp x lo hi` as written in the spec's formulas. -/
def clamp (x lo hi : ℚ) : ℚ := max lo (min x hi)

/-- The similarity score as the SPEC's sentence for claim C1 describes it:
mood-match term of weight 0.4; category-match term of weight 0.1;
price term `0.3 * (1 - clamp(|Δprice| / max(price_a, price_b), 0, 1))`
contributing 0 when the max price is 0; hotness term
`0.2 * (1 - clamp(|Δhotness|, 0, 1))`; total capped above at 1.0. -/
def spec_similarity (a b : Row) : ℚ :=
  let mood_term : ℚ := if a.mood = b.mood then 4/10 else 0
  let category_term : ℚ := if a.section_name = b.section_name then 1/10 else 0
  let price_term : ℚ :=
    if max a.price b.price = 0 then 0
    else (3/10) * (1 - clamp (|a.price - b.price| / max a.price b.price) 0 1)
  let hotness_term : ℚ := (2/10) * (1 - clamp |a.hotness_score - b.hotness_score| 0 1)
  min (mood_term + category_term + price_term + hotness_term) 1

/-- The similarity score as the amended claim C1 describes it: as
`spec_similarity`, except that the price term is added exactly when
`max(price_a, price_b) > 0` (so also 0 when both prices are negative), the
quotient `|Δprice| / max` needs no clamping below, and the hotness term is
the UNclamped `0.2 * (1 - |Δhotness|)`, which is negative when the hotness
scores differ by more than 1. -/
def spec_similarity_amended (a b : Row) : ℚ :=
  let mood_term : ℚ := if a.mood = b.mood then 4/10 else 0
  let category_term : ℚ := if a.section_name = b.section_name then 1/10 else 0
  let price_term : ℚ :=
    if max a.price b.price > 0 then
      (3/10) * (1 - min (|a.price - b.price| / max a.price b.price) 1)
    else 0
  let hotness_term : ℚ := (2/10) * (1 - |a.hotness_score - b.hotness_score|)
  min (mood_term + category_term + price_term + hotness_term) 1

/-- Row literals used in concrete counterexamples and witnesses. -/
def mkRow (id : ℤ) (mood : String) (price hotness : ℚ) (sect color : String) : Row :=
  ⟨id, mood, price, hotness, sect, color⟩

/-- C1, counterexample: with equal moods and sections, prices both 0, and
hotness scores 0 and 2, the code computes 0.4 - 0.2 + 0.1 = 0.3 (the
unclamped hotness term goes negative) while the spec's clamped formula
gives 0.4 + 0.1 + 0 = 0.5. -/
theorem c1_counterexample :
    (calculate_similarity (mkRow 1 "Casual" 0 0 "Divided" "Black")
        (mkRow 2 "Casual" 0 2 "Divided" "Black") = 3/10 ∧
     spec_similarity (mkRow 1 "Casual" 0 0 "Divided" "Black")
        (mkRow 2 "Casual" 0 2 "Divided" "Black") = 1/2 ∧
     calculate_similarity (mkRow 1 "Casual" 0 0 "Divided" "Black")
        (mkRow 2 "Casual" 0 2 "Divided" "Black")
       ≠ spec_similarity (mkRow 1 "Casual" 0 0 "Divided" "Black")
          (mkRow 2 "Casual" 0 2 "Divided" "Black")) ∧
    (calculate_similarity (mkRow 1 "Casual" (-1) 0 "Divided" "Black")
        (mkRow 2 "Formal" (-2) 0 "Menswear" "White") = 1/5 ∧
     spec_similarity (mkRow 1 "Casual" (-1) 0 "Divided" "Black")
        (mkRow 2 "Formal" (-2) 0 "Menswear" "White") = 1/2 ∧
     calculate_similarity (mkRow 1 "Casual" (-1) 0 "Divided" "Black")
        (mkRow 2 "Formal" (-2) 0 "Menswear" "White")
       ≠ spec_similarity (mkRow 1 "Casual" (-1) 0 "Divided" "Black")
          (mkRow 2 "Formal" (-2) 0 "Menswear" "White")) := by
  refine ⟨⟨?_, ?_, ?_⟩, ?_, ?_, ?_⟩ <;>
    (simp [calculate_similarity, spec_similarity, clamp, mkRow]; try norm_num)

/-- C1 (amended): for every pair of rows, `calculate_similarity` equals the
amended spec formula: mood term 0.4 when moods are equal, category term 0.1
when sections are equal, price term `0.3 * (1 - min(|Δprice|/max, 1))` added
exactly when `max(price_a, price_b) > 0`, and UNclamped hotness term
`0.2 * (1 - |Δhotness|)`; the total capped above at 1.0. -/
theorem c1_amended_similarity_eq (a b : Row) :
    calculate_similarity a b = spec_similarity_amended a b := by
  simp only [calculate_similarity, spec_similarity_amended]
  split_ifs <;> (congr 1; ring)

/-- C2, counterexample: the claim that `calculate_similarity` always lands
in [0,1] fails: with different moods and sections, both prices 0, and
hotness scores 0 and 3, the score is 0.2 * (1 - 3) = -0.4 < 0. -/
theorem c2_counterexample :
    calculate_similarity (mkRow 1 "Casual" 0 0 "Divided" "Black")
        (mkRow 2 "Formal" 0 3 "Menswear" "White") < 0 := by
  simp [calculate_similarity, mkRow]
  norm_num

/-- C2 (amended): whenever the two hotness scores differ by at most 1 (in
particular whenever both lie in [0,1], as the catalog's do),
`calculate_similarity` returns a value in the closed interval [0, 1]. -/
theorem c2_similarity_in_unit_interval (a b : Row)
    (h : |a.hotness_score - b.hotness_score| ≤ 1) :
    0 ≤ calculate_similarity a b ∧ calculate_similarity a b ≤ 1 := by
  unfold calculate_similarity
  refine ⟨?_, min_le_right _ _⟩
  have hh : (0:ℚ) ≤ 1 - |a.hotness_score - b.hotness_score| := by linarith
  have habs : (0:ℚ) ≤ |a.price - b.price| := abs_nonneg _
  refine le_min ?_ (by norm_num)
  split_ifs with hmood hp hsec
  all_goals
    have hq : min (|a.price - b.price| / max a.price b.price) 1 ≤ 1 :=
      min_le_right _ _
  all_goals nlinarith

/-- C2 witness: the bound applied at a concrete pair of rows. -/
theorem c2_witness :
    0 ≤ calculate_similarity (mkRow 1 "Casual" 10 (1/2) "Divided" "Black")
        (mkRow 2 "Casual" 12 (3/4) "Divided" "Red") ∧
    calculate_similarity (mkRow 1 "Casual" 10 (1/2) "Divided" "Black")
        (mkRow 2 "Casual" 12 (3/4) "Divided" "Red") ≤ 1 :=
  c2_similarity_in_unit_interval _ _ (by norm_num [mkRow, abs_le])

/-- The four labels of the `pd.cut` binning used on the inventory /
business page (src/app.py lines 1043–1045 and 1063–1065). -/
inductive Tier where
  | low
  | medium
  | high
  | veryHigh
deriving DecidableEq, Repr

/-- Embedding of the `performance_tier` / `hotness_bins` classification
(src/app.py lines 1043–1045 and 1063–1065):
`pd.cut(hotness_score, bins=[0, 0.3, 0.5, 0.7, 1.0],
labels=['Low', 'Medium', 'High', 'Very High'])`.  `pd.cut` with default
`right=True` and `include_lowest=False` assigns the half-open-below
intervals (0, 0.3], (0.3, 0.5], (0.5, 0.7], (0.7, 1.0]; a value outside
(0, 1] falls in no bin (pandas yields NaN), embedded as `none`. -/
def performance_tier (h : ℚ) : Option Tier :=
  if 0 < h ∧ h ≤ 3/10 then some .low
  else if 3/10 < h ∧ h ≤ 1/2 then some .medium
  else if 1/2 < h ∧ h ≤ 7/10 then some .high
  else if 7/10 < h ∧ h ≤ 1 then some .veryHigh
  else none

/-- The tier step function as the SPEC's sentence for claim C3 describes
it, with the spec's four buckets identified positionally with the code's
labels (Premium = top = `veryHigh`, Trend = `high`, Stability = `medium`,
Liquidation = bottom = `low`): hotness > 0.8 → top, [0.5, 0.8) → Trend,
[0.3, 0.5) → Stability, < 0.3 → Liquidation; every value falls in exactly
one bucket. -/
def spec_pricing_tier (h : ℚ) : Tier :=
  if h > 4/5 then .veryHigh
  else if 1/2 ≤ h then .high
  else if 3/10 ≤ h then .medium
  else .low

/-- C3, counterexample: at hotness 0.75 the code's binning yields the top
bucket `Very High` (interval (0.7, 1.0]), while the spec's step function
puts 0.75 ∈ [0.5, 0.8) in the second (Trend) bucket; moreover at hotness 0
the code assigns NO bucket (`pd.cut` yields NaN outside (0, 1]) while the
spec's function assigns the bottom (Liquidation) bucket to every value
below 0.3. -/
theorem c3_counterexample :
    performance_tier (3/4) = some Tier.veryHigh ∧
    spec_pricing_tier (3/4) = Tier.high ∧
    performance_tier (3/4) ≠ some (spec_pricing_tier (3/4)) ∧
    performance_tier 0 = none ∧
    performance_tier 0 ≠ some (spec_pricing_tier 0) := by
  refine ⟨?_, ?_, ?_, ?_, ?_⟩ <;>
    (norm_num [performance_tier, spec_pricing_tier]; try simp)

/-- C3 (amended): the hotness classification used on the inventory /
business page is the `pd.cut` step function with right-closed bins at
0, 0.3, 0.5, 0.7, 1.0: hotness in (0, 0.3] maps to `Low`, (0.3, 0.5] to
`Medium`, (0.5, 0.7] to `High`, (0.7, 1.0] to `Very High`, and a hotness
value outside (0, 1] falls in no bucket; within (0, 1] every value falls
in exactly one bucket, determined only by these boundaries. -/
theorem c3_tier_buckets (h : ℚ) :
    (performance_tier h = some Tier.low ↔ 0 < h ∧ h ≤ 3/10) ∧
    (performance_tier h = some Tier.medium ↔ 3/10 < h ∧ h ≤ 1/2) ∧
    (performance_tier h = some Tier.high ↔ 1/2 < h ∧ h ≤ 7/10) ∧
    (performance_tier h = some Tier.veryHigh ↔ 7/10 < h ∧ h ≤ 1) ∧
    (performance_tier h = none ↔ ¬(0 < h ∧ h ≤ 1)) := by
  unfold performance_tier
  split_ifs with h1 h2 h3 h4
  case neg =>
    push_neg at h1 h2 h3 h4
    by_cases hp : 0 < h
    · have k1 := h1 hp
      have k2 := h2 k1
      have k3 := h3 k2
      have k4 := h4 k3
      refine ⟨?_, ?_, ?_, ?_, ?_⟩ <;> simp <;> intros <;> linarith
    · push_neg at hp
      refine ⟨?_, ?_, ?_, ?_, ?_⟩ <;> simp <;> intros <;> linarith
  all_goals
    first
      | obtain ⟨ha, hb⟩ := h1
      | obtain ⟨ha, hb⟩ := h2
      | obtain ⟨ha, hb⟩ := h3
      | obtain ⟨ha, hb⟩ := h4
  all_goals
    refine ⟨?_, ?_, ?_, ?_, ?_⟩ <;> simp <;>
      first
        | (constructor <;> linarith)
        | (intros; linarith)

/-- The total preorder that pandas `DataFrame.nlargest(n, column)` (with
its default `keep='first'`) sorts by, on rows paired with their original
position: a row with strictly larger key comes first, and at equal keys
the row with the smaller original position comes first. -/
def keyOrder {α : Type} (key : α → ℚ) (x y : ℕ × α) : Prop :=
  key y.2 < key x.2 ∨ (key x.2 = key y.2 ∧ x.1 ≤ y.1)

instance keyOrder_decidable {α : Type} (key : α → ℚ) : DecidableRel (keyOrder key) :=
  fun x y => by unfold keyOrder; infer_instance

instance keyOrder_is_total {α : Type} (key : α → ℚ) : IsTotal (ℕ × α) (keyOrder key) := by
  constructor
  intro x y
  rcases lt_trichotomy (key x.2) (key y.2) with hlt | heq | hgt
  · exact Or.inr (Or.inl hlt)
  · rcases Nat.le_total x.1 y.1 with hle | hle
    · exact Or.inl (Or.inr ⟨heq, hle⟩)
    · exact Or.inr (Or.inr ⟨heq.symm, hle⟩)
  · exact Or.inl (Or.inl hgt)

instance keyOrder_is_trans {α : Type} (key : α → ℚ) : IsTrans (ℕ × α) (keyOrder key) := by
  constructor
  rintro x y z (hxy | ⟨hxy, hxy'⟩) (hyz | ⟨hyz, hyz'⟩)
  · exact Or.inl (hyz.trans hxy)
  · exact Or.inl (hyz ▸ hxy)
  · exact Or.inl (hxy ▸ hyz)
  · exact Or.inr ⟨hxy.trans hyz, hxy'.trans hyz'⟩

/-- Embedding of pandas `DataFrame.nlargest(n, column)` with the default
`keep='first'`: stable-sort the rows by the key column in descending order
(original position breaks ties) and keep the first `n`.  Rows are
enumerated with their original position so the tie-break is part of the
sort key. -/
def nlargest {α : Type} (key : α → ℚ) (n : ℕ) (l : List α) : List α :=
  (((l.enum).insertionSort (keyOrder key)).take n).map Prod.snd

/-- The candidate frame built inside `get_recommendations`
(src/app.py lines 245–252): drop the selected product's own row
(`article_id` filter), then add the `match_score` column computed by
`calculate_similarity`. -/
def score_candidates (selected_product : Row) (df_articles : List Row) : List (Row × ℚ) :=
  (df_articles.filter fun r => r.article_id ≠ selected_product.article_id).map
    fun row => (row, calculate_similarity selected_product row)

/-- The scored candidates paired with their original positions, in the
order `nlargest` sorts them. -/
def recommendation_order (selected_product : Row) (df_articles : List Row) :
    List (ℕ × (Row × ℚ)) :=
  ((score_candidates selected_product df_articles).enum).insertionSort
    (keyOrder fun p => p.2)

/-- Embedding of `get_recommendations` (src/app.py lines 242–257): filter
out the selected product, score every remaining row, and return the top
`n_recommendations` rows by `match_score` via `nlargest`. -/
def get_recommendations (selected_product : Row) (df_articles : List Row)
    (n_recommendations : ℕ) : List (Row × ℚ) :=
  nlargest (fun p => p.2) n_recommendations (score_candidates selected_product df_articles)

theorem recommendation_order_perm (sel : Row) (df : List Row) :
    (recommendation_order sel df).Perm (score_candidates sel df).enum :=
  List.perm_insertionSort _ _

theorem recommendation_order_sorted (sel : Row) (df : List Row) :
    (recommendation_order sel df).Sorted (keyOrder fun p : Row × ℚ => p.2) :=
  List.sorted_insertionSort _ _

/-- Everything kept by the `take` is `keyOrder`-related to everything
dropped by it. -/
theorem take_rel_drop {α : Type} {r : α → α → Prop} {l : List α} (hs : l.Sorted r)
    (n : ℕ) : ∀ x ∈ l.take n, ∀ y ∈ l.drop n, r x y := by
  have hp : (l.take n ++ l.drop n).Pairwise r := by
    rw [List.take_append_drop]
    exact hs
  exact (List.pairwise_append.mp hp).2.2

/-- A scored candidate that was not kept by the `take` is `keyOrder`-below
every kept entry. -/
theorem kept_rel_of_not_kept (sel : Row) (df : List Row) (n : ℕ)
    {p : ℕ × (Row × ℚ)} (hp : p ∈ (score_candidates sel df).enum)
    (hnot : p ∉ (recommendation_order sel df).take n)
    {q : ℕ × (Row × ℚ)} (hq : q ∈ (recommendation_order sel df).take n) :
    keyOrder (fun x : Row × ℚ => x.2) q p := by
  have hmem : p ∈ recommendation_order sel df :=
    (recommendation_order_perm sel df).mem_iff.mpr hp
  rw [← List.take_append_drop n (recommendation_order sel df)] at hmem
  rcases List.mem_append.mp hmem with h | h
  · exact absurd h hnot
  · exact take_rel_drop (recommendation_order_sorted sel df) n q hq p h

/-- C5: `get_recommendations` returns the candidates with the `n` largest
`match_score` values under pandas' `keep='first'` (stable) tie-breaking:
it equals the kept prefix of the candidates stable-sorted by descending
score; every candidate entry (position, row, score) that is not kept has
score ≤ every kept entry's score; and whenever a candidate entry has the
same score as a kept entry but an earlier original position, that
candidate entry is kept as well. -/
theorem c5_top_n_stable (sel : Row) (df : List Row) (n : ℕ) :
    get_recommendations sel df n
        = ((recommendation_order sel df).take n).map Prod.snd ∧
    (∀ p ∈ (score_candidates sel df).enum,
        p ∉ (recommendation_order sel df).take n →
        ∀ q ∈ (recommendation_order sel df).take n, p.2.2 ≤ q.2.2) ∧
    (∀ p ∈ (score_candidates sel df).enum,
        ∀ q ∈ (recommendation_order sel df).take n,
        p.2.2 = q.2.2 → p.1 < q.1 → p ∈ (recommendation_order sel df).take n) := by
  refine ⟨rfl, ?_, ?_⟩
  · intro p hp hnot q hq
    have hrel := kept_rel_of_not_kept sel df n hp hnot hq
    simp only [keyOrder] at hrel
    rcases hrel with hlt | ⟨heq, _⟩
    · exact le_of_lt hlt
    · exact le_of_eq heq.symm
  · intro p hp q hq heq hlt
    by_contra hnot
    have hrel := kept_rel_of_not_kept sel df n hp hnot hq
    simp only [keyOrder] at hrel
    rcases hrel with h | ⟨h1, h2⟩
    · rw [heq] at h
      exact absurd h (lt_irrefl _)
    · exact absurd (lt_of_lt_of_le hlt h2) (lt_irrefl _)

/-- C8: the selected product never recommends itself, and at most
`n_recommendations` rows are returned. -/
theorem c8_no_self_and_bounded (sel : Row) (df : List Row) (n : ℕ) :
    (∀ p ∈ get_recommendations sel df n, p.1.article_id ≠ sel.article_id) ∧
    (get_recommendations sel df n).length ≤ n := by
  constructor
  · intro p hp
    simp only [get_recommendations, nlargest] at hp
    rcases List.mem_map.mp hp with ⟨pr, hpr, hsnd⟩
    have h1 : pr ∈ (score_candidates sel df).enum.insertionSort (keyOrder fun x : Row × ℚ => x.2) :=
      List.take_subset n _ hpr
    have h2 : pr ∈ (score_candidates sel df).enum :=
      (List.perm_insertionSort _ _).mem_iff.mp h1
    have h3 : pr.2 ∈ score_candidates sel df :=
      List.getElem?_mem (List.mem_enum_iff_getElem?.mp h2)
    simp only [score_candidates] at h3
    rcases List.mem_map.mp h3 with ⟨row, hrow, heq⟩
    have hfilt := List.of_mem_filter hrow
    rw [← hsnd, ← heq]
    simpa using hfilt
  · simp only [get_recommendations, nlargest, List.length_map]
    exact List.length_take_le n _

/-- C8 witness: at a concrete selected product, frame, and `n`. -/
theorem c8_witness :
    ((mkRow 2 "B" 0 0 "T" "Red"), calculate_similarity (mkRow 1 "A" 0 0 "S" "Black") (mkRow 2 "B" 0 0 "T" "Red")) ∈
        get_recommendations (mkRow 1 "A" 0 0 "S" "Black")
          [mkRow 1 "A" 0 0 "S" "Black", mkRow 2 "B" 0 0 "T" "Red"] 10 ∧
    (mkRow 2 "B" 0 0 "T" "Red").article_id ≠ (mkRow 1 "A" 0 0 "S" "Black").article_id ∧
    (get_recommendations (mkRow 1 "A" 0 0 "S" "Black")
          [mkRow 1 "A" 0 0 "S" "Black", mkRow 2 "B" 0 0 "T" "Red"] 10).length ≤ 10 := by
  have hev : get_recommendations (mkRow 1 "A" 0 0 "S" "Black")
      [mkRow 1 "A" 0 0 "S" "Black", mkRow 2 "B" 0 0 "T" "Red"] 10
      = [((mkRow 2 "B" 0 0 "T" "Red"),
          calculate_similarity (mkRow 1 "A" 0 0 "S" "Black") (mkRow 2 "B" 0 0 "T" "Red"))] := rfl
  refine ⟨?_, ?_, ?_⟩
  · rw [hev]
    exact List.mem_singleton.mpr rfl
  · exact (c8_no_self_and_bounded (mkRow 1 "A" 0 0 "S" "Black")
      [mkRow 1 "A" 0 0 "S" "Black", mkRow 2 "B" 0 0 "T" "Red"] 10).1 _
      (by rw [hev]; exact List.mem_singleton.mpr rfl)
  · exact (c8_no_self_and_bounded (mkRow 1 "A" 0 0 "S" "Black")
      [mkRow 1 "A" 0 0 "S" "Black", mkRow 2 "B" 0 0 "T" "Red"] 10).2

/-- C5 witness: the top-2 theorem applied at concrete frames.  In the
first frame ["B"-mood row id 1 (score 1/5), "A"-mood row id 2 (score
7/10), "B"-mood row id 3 (score 1/5)], entry (2, id 3, 1/5) is not kept
and its score is ≤ the kept entry (0, id 1, 1/5)'s; in the second frame
[id 1, id 3] (both score 1/5) the earlier equal-scoring entry is kept. -/
theorem c5_witness :
    ((2, (mkRow 3 "B" 0 0 "T" "X", (1/5 : ℚ))) ∈
        (score_candidates (mkRow 9 "A" 0 0 "S" "X")
          [mkRow 1 "B" 0 0 "T" "X", mkRow 2 "A" 0 0 "S" "X", mkRow 3 "B" 0 0 "T" "X"]).enum) ∧
    ((1/5 : ℚ) ≤ 1/5) ∧
    ((0, (mkRow 1 "B" 0 0 "T" "X", (1/5 : ℚ))) ∈
        (recommendation_order (mkRow 9 "A" 0 0 "S" "X")
          [mkRow 1 "B" 0 0 "T" "X", mkRow 3 "B" 0 0 "T" "X"]).take 2) := by
  have hordA : recommendation_order (mkRow 9 "A" 0 0 "S" "X")
      [mkRow 1 "B" 0 0 "T" "X", mkRow 2 "A" 0 0 "S" "X", mkRow 3 "B" 0 0 "T" "X"]
      = [(1, (mkRow 2 "A" 0 0 "S" "X", (7/10 : ℚ))),
         (0, (mkRow 1 "B" 0 0 "T" "X", (1/5 : ℚ))),
         (2, (mkRow 3 "B" 0 0 "T" "X", (1/5 : ℚ)))] := by
    simp [recommendation_order, score_candidates, calculate_similarity, mkRow,
      List.enum, List.enumFrom]
    norm_num [keyOrder]
  have hordB : recommendation_order (mkRow 9 "A" 0 0 "S" "X")
      [mkRow 1 "B" 0 0 "T" "X", mkRow 3 "B" 0 0 "T" "X"]
      = [(0, (mkRow 1 "B" 0 0 "T" "X", (1/5 : ℚ))),
         (1, (mkRow 3 "B" 0 0 "T" "X", (1/5 : ℚ)))] := by
    simp [recommendation_order, score_candidates, calculate_similarity, mkRow,
      List.enum, List.enumFrom]
    norm_num [keyOrder]
  have hpA : (2, (mkRow 3 "B" 0 0 "T" "X", (1/5 : ℚ))) ∈
      (score_candidates (mkRow 9 "A" 0 0 "S" "X")
        [mkRow 1 "B" 0 0 "T" "X", mkRow 2 "A" 0 0 "S" "X", mkRow 3 "B" 0 0 "T" "X"]).enum := by
    simp [score_candidates, calculate_similarity, mkRow, List.enum, List.enumFrom]
    norm_num
  refine ⟨hpA, ?_, ?_⟩
  · refine (c5_top_n_stable (mkRow 9 "A" 0 0 "S" "X")
      [mkRow 1 "B" 0 0 "T" "X", mkRow 2 "A" 0 0 "S" "X", mkRow 3 "B" 0 0 "T" "X"] 2).2.1
      (2, (mkRow 3 "B" 0 0 "T" "X", (1/5 : ℚ))) hpA ?_
      (0, (mkRow 1 "B" 0 0 "T" "X", (1/5 : ℚ))) ?_
    · rw [hordA]
      simp [mkRow]
    · rw [hordA]
      simp
  · refine (c5_top_n_stable (mkRow 9 "A" 0 0 "S" "X")
      [mkRow 1 "B" 0 0 "T" "X", mkRow 3 "B" 0 0 "T" "X"] 2).2.2
      (0, (mkRow 1 "B" 0 0 "T" "X", (1/5 : ℚ))) ?_
      (1, (mkRow 3 "B" 0 0 "T" "X", (1/5 : ℚ))) ?_ rfl (by decide)
    · simp [score_candidates, calculate_similarity, mkRow, List.enum, List.enumFrom]
      norm_num
    · rw [hordB]
      simp

/-- C4, counterexample: `get_recommendations` applies NO minimum-score
threshold.  With one candidate whose score is 1/5 < 0.6, that candidate is
returned. -/
theorem c4_counterexample :
    ∃ p ∈ get_recommendations (mkRow 9 "A" 0 0 "S" "X") [mkRow 1 "B" 0 0 "T" "X"] 10,
      p.2 < 3/5 := by
  refine ⟨(mkRow 1 "B" 0 0 "T" "X", (1/5 : ℚ)), ?_, by norm_num⟩
  simp [get_recommendations, nlargest, score_candidates, calculate_similarity, mkRow,
    List.enum, List.enumFrom]
  norm_num

/-- C4 (amended): `get_recommendations` applies no minimum-score
threshold: every candidate row (every row whose `article_id` differs from
the selected product's) is eligible regardless of its score, and exactly
`min n (number of candidates)` rows are returned. -/
theorem c4_no_threshold (sel : Row) (df : List Row) (n : ℕ) :
    (get_recommendations sel df n).length
      = min n (df.filter fun r => r.article_id ≠ sel.article_id).length := by
  simp only [get_recommendations, nlargest, List.length_map, List.length_take]
  rw [(List.perm_insertionSort _ _).length_eq, List.enum_length]
  simp [score_candidates]

/-- Embedding of `download_from_drive` (src/data_loader.py lines 27–58).
The filesystem is the list `fs` of existing paths.  The effect of
`gdown.download` is modelled by the parameter `gdown_succeeds`: when true
the download creates the file at `file_path`; when false (covering both a
failed download and a raised exception, which the source's `except` arm
turns into `False`) it leaves the filesystem unchanged.  The function
returns the source's boolean together with the filesystem after the call. -/
def download_from_drive (gdown_succeeds : Bool) (file_id : String) (file_path : String)
    (fs : List String) : Bool × List String :=
  if file_path ∈ fs then (true, fs)
  else
    let fs' := if gdown_succeeds then file_path :: fs else fs
    if file_path ∈ fs' then (true, fs') else (false, fs')

/-- C6: if the file already exists at the target path,
`download_from_drive` returns `True` and performs no download (the
filesystem is unchanged); and calling it twice with the same arguments
leaves the filesystem exactly as after the first call (the load is
memoized / idempotent). -/
theorem c6_download_memoized (g : Bool) (fid fp : String) (fs : List String) :
    (fp ∈ fs → download_from_drive g fid fp fs = (true, fs)) ∧
    (download_from_drive g fid fp (download_from_drive g fid fp fs).2).2
      = (download_from_drive g fid fp fs).2 := by
  constructor
  · intro h
    simp [download_from_drive, h]
  · unfold download_from_drive
    split_ifs <;> simp_all

/-- C6 witness: with the file already present, the call returns `True`
with the filesystem unchanged. -/
theorem c6_witness :
    "data/article_master_web.csv" ∈ ["data/article_master_web.csv"] ∧
    download_from_drive true "1rLdTRGW2iu50edIDWnGSBkZqWznnNXLK"
        "data/article_master_web.csv" ["data/article_master_web.csv"]
      = (true, ["data/article_master_web.csv"]) :=
  ⟨by decide,
   (c6_download_memoized true "1rLdTRGW2iu50edIDWnGSBkZqWznnNXLK"
      "data/article_master_web.csv" ["data/article_master_web.csv"]).1 (by decide)⟩

/-- Embedding of Python `str.zfill(width)`: pad on the left with `'0'` up
to `width` characters; a leading `'+'` or `'-'` stays in front of the
padding; a string already at least `width` long is returned unchanged. -/
def str_zfill (width : ℕ) (s : String) : String :=
  if width ≤ s.length then s
  else
    match s.data with
    | c :: rest =>
      if c = '+' ∨ c = '-' then
        String.mk (c :: (List.replicate (width - s.length) '0' ++ rest))
      else String.mk (List.replicate (width - s.length) '0' ++ s.data)
    | [] => String.mk (List.replicate width '0')

/-- Embedding of POSIX `os.path.join(path, b)` for two components: an
absolute second component replaces the first; otherwise a `'/'` separator
is inserted unless the first component is empty or already ends in `'/'`. -/
def pyJoin (path b : String) : String :=
  if b.startsWith "/" then b
  else if path = "" ∨ path.endsWith "/" then path ++ b
  else path ++ "/" ++ b

/-- Embedding of `get_image_path` (src/data_loader.py lines 152–175 and
src/app.py lines 200–214): `None` when `images_dir` is `None`; otherwise
the path `images_dir ⧸ zfill₁₀(article_id).jpg` when a file exists there,
else `None`.  (The `try/except` wrapper is dead in this pure model: none
of `zfill`, `join`, `exists` raises.) -/
def get_image_path (article_id : String) (images_dir : Option String)
    (fs : List String) : Option String :=
  match images_dir with
  | none => none
  | some d =>
    let aid := str_zfill 10 article_id
    let image_path := pyJoin d (aid ++ ".jpg")
    if image_path ∈ fs then some image_path else none

/-- C7: `get_image_path` returns `None` iff `images_dir` is `None` or no
file exists at the joined path `images_dir ⧸ (article_id zero-padded to 10
characters).jpg`; otherwise it returns exactly that path. -/
theorem c7_image_path_spec (article_id d : String) (fs : List String) :
    (get_image_path article_id none fs = none) ∧
    (get_image_path article_id (some d) fs = none ↔
        pyJoin d (str_zfill 10 article_id ++ ".jpg") ∉ fs) ∧
    (pyJoin d (str_zfill 10 article_id ++ ".jpg") ∈ fs →
        get_image_path article_id (some d) fs
          = some (pyJoin d (str_zfill 10 article_id ++ ".jpg"))) := by
  refine ⟨rfl, ?_, ?_⟩ <;>
    simp only [get_image_path] <;> split_ifs with h <;> simp_all

/-- C7 witness: with the image file present, the padded path is returned. -/
theorem c7_witness :
    pyJoin "data/hm_web_images" (str_zfill 10 "123" ++ ".jpg")
        ∈ [pyJoin "data/hm_web_images" (str_zfill 10 "123" ++ ".jpg")] ∧
    get_image_path "123" (some "data/hm_web_images")
        [pyJoin "data/hm_web_images" (str_zfill 10 "123" ++ ".jpg")]
      = some (pyJoin "data/hm_web_images" (str_zfill 10 "123" ++ ".jpg")) :=
  ⟨List.mem_singleton.mpr rfl,
   (c7_image_path_spec "123" "data/hm_web_images" _).2.2 (List.mem_singleton.mpr rfl)⟩

/-- Embedding of `filter_products` (src/data_loader.py lines 177–213).
The source wraps the whole body in `try/except` and returns the input
frame on any internal error; the parameter `internal_error` models whether
such an error occurs.  Python truthiness of the arguments is embedded
explicitly: `None` and the empty string skip a filter, as do the mood
`"All Moods"`, the color `"All Colors"`, and — because `0.0` is falsy —
a `hotness_min` of 0; a present `price_range` tuple is always truthy. -/
def filter_products (internal_error : Bool) (df : List Row) (mood : Option String)
    (price_range : Option (ℚ × ℚ)) (color : Option String)
    (hotness_min : Option ℚ) : List Row :=
  if internal_error then df
  else
    let result := df
    let result := match mood with
      | some m =>
        if m ≠ "" ∧ m ≠ "All Moods" then result.filter (fun r => r.mood = m) else result
      | none => result
    let result := match price_range with
      | some pr => result.filter (fun r => pr.1 ≤ r.price ∧ r.price ≤ pr.2)
      | none => result
    let result := match color with
      | some c =>
        if c ≠ "" ∧ c ≠ "All Colors" then
          result.filter (fun r => r.perceived_colour_master_name = c)
        else result
      | none => result
    let result := match hotness_min with
      | some h => if h ≠ 0 then result.filter (fun r => r.hotness_score ≥ h) else result
      | none => result
    result

/-- C9: a `hotness_min` of 0.0 is falsy in Python, so it applies no
hotness filter: `filter_products` with `hotness_min = 0` returns exactly
what it returns with `hotness_min = None`, for every frame and every
choice of the other arguments. -/
theorem c9_zero_hotness_min_is_none (e : Bool) (df : List Row) (mood : Option String)
    (pr : Option (ℚ × ℚ)) (color : Option String) :
    filter_products e df mood pr color (some 0)
      = filter_products e df mood pr color none := by
  simp [filter_products]

/-- C10: `filter_products` only removes rows — its output is a sublist of
the input frame (in particular every output row is an input row, in input
order, unmodified) — and when an internal error occurs the input frame is
returned unchanged. -/
theorem c10_filter_products_sublist (e : Bool) (df : List Row) (mood : Option String)
    (pr : Option (ℚ × ℚ)) (color : Option String) (hm : Option ℚ) :
    (filter_products e df mood pr color hm).Sublist df ∧
    (e = true → filter_products e df mood pr color hm = df) := by
  cases e
  case true =>
    exact ⟨by simp [filter_products], fun _ => by simp [filter_products]⟩
  case false =>
    refine ⟨?_, by simp⟩
    simp only [filter_products, Bool.false_eq_true, if_false]
    rcases mood with _ | m <;> rcases pr with _ | p <;>
      rcases color with _ | c <;> rcases hm with _ | h <;>
      simp only [] <;> (try split_ifs) <;>
      all_goals
        repeat
          first
            | exact List.Sublist.refl _
            | refine List.Sublist.trans (List.filter_sublist _) ?_

/-- C10 witness: at a concrete frame with an internal error, the frame
comes back unchanged (and is trivially a sublist of itself). -/
theorem c10_witness :
    (filter_products true [mkRow 1 "A" 5 (1/2) "S" "X"] none none none none).Sublist
        [mkRow 1 "A" 5 (1/2) "S" "X"] ∧
    filter_products true [mkRow 1 "A" 5 (1/2) "S" "X"] none none none none
      = [mkRow 1 "A" 5 (1/2) "S" "X"] :=
  ⟨(c10_filter_products_sublist true [mkRow 1 "A" 5 (1/2) "S" "X"]
      none none none none).1,
   (c10_filter_products_sublist true [mkRow 1 "A" 5 (1/2) "S" "X"]
      none none none none).2 rfl⟩
